import Mathlib

/-!
Shallow embedding of the `sys/build.rs` build pipeline of the rquickjs
repository.  The build script resolves a configuration (preprocessor
defines and a patch list) from environment variables, stages the vendored
quickjs sources into the cargo output directory, applies patches, provisions
a WASI toolchain when cross-compiling to wasi, produces one FFI bindings
artifact (either via live `bindgen` introspection or a bundled/placeholder
fallback) and finally compiles the static library.

The pipeline's externally visible behaviour is modelled as a trace of
events (file copies, patch-tool invocations, toolchain download/extract
steps, file writes, warnings, the final compilation).  Results of external
processes (the `patch` tool's exit status, curl/tar exit statuses, the
bindgen introspection output) and of filesystem probes (does the cached
archive / linker / bundled bindings file exist) are inputs to the model.
A `panic!`/`expect` abort of the build script is modelled as `none`.
-/

namespace RqjsBuild

/-- The ambient process environment: `env::var` / `env::var_os` lookups.
`none` models an unset variable (`env::var(..)` returning `Err`). -/
structure Env where
  var : String → Option String

/-- `env::consts::OS` and `env::consts::ARCH` of the machine running the
build script (the host, not the compilation target). -/
structure HostInfo where
  os : String
  arch : String
deriving DecidableEq

/-- Results of the filesystem probes (`try_exists`, `canonicalize`)
performed by the build script. -/
structure FsState where
  /-- `OUT_DIR/wasi-sdk/wasi-sdk-20-0.tar.gz` exists (build.rs line 28). -/
  sdk_archive_exists : Bool
  /-- `OUT_DIR/wasi-sdk/bin/wasm-ld` exists (build.rs line 63). -/
  sdk_linker_exists : Bool
  /-- The directory named by the `WASI_SDK` override exists (line 199). -/
  override_sdk_exists : Bool
  /-- `src/bindings/<TARGET>.rs` exists (lines 279-285). -/
  bundled_bindings_exists : Bool
deriving DecidableEq

/-- Paths touched by the pipeline: either under the cargo build-output
directory (`OUT_DIR`, including the `wasi-sdk` toolchain cache below it)
or relative to the crate root (the vendored `quickjs/` tree, `patches/`,
and the bundled `src/bindings/` store). -/
inductive RPath where
  | outDir (rel : String)
  | repo (rel : String)
deriving DecidableEq

/-- Observable events of one pipeline invocation, in program order. -/
inductive Event where
  /-- `fs::copy src dst`. -/
  | copyFile (src dst : RPath)
  /-- One run of the external `patch -p1 -f` tool (chdir'ed into the
  build-output directory) for the given patch file, recording the exit
  status the tool reported. -/
  | patchApplied (file : String) (exit_code : Nat)
  /-- `curl` fetch of the wasi-sdk archive for the given platform suffix. -/
  | sdkDownload (suffix : String)
  /-- `tar -zxf` extraction of the wasi-sdk archive into the cache. -/
  | sdkExtract
  /-- A `cargo:warning=` diagnostic line. -/
  | warn (msg : String)
  /-- `fs::write path content`. -/
  | writeFile (path : RPath) (content : String)
  /-- `fs::create_dir_all path`. -/
  | mkdir (path : RPath)
  /-- `cc::Build::compile("libquickjs.a")`. -/
  | compileLib
deriving DecidableEq

/-- The fixed feature-toggle list of build.rs lines 96-112. -/
def features : List String :=
  ["exports", "bindgen", "update-bindings", "dump-bytecode", "dump-gc",
   "dump-gc-free", "dump-free", "dump-leaks", "dump-mem", "dump-objects",
   "dump-atoms", "dump-shapes", "dump-module-resolve", "dump-promise",
   "dump-read-object"]

/-- `feature_to_define` (build.rs lines 246-248): uppercase the name, then
turn every `-` into `_` (the feature names are ASCII, so Rust's
`to_uppercase().replace('-', "_")` is this character-wise map). -/
def feature_to_define (name : String) : String :=
  String.mk ((name.data.map Char.toUpper).map
    (fun c => if c = '-' then '_' else c))

/-- `feature.starts_with("dump-")` (build.rs line 172), as a prefix test
on the character list. -/
def str_starts_with (s p : String) : Bool := p.data.isPrefixOf s.data

/-- `feature_to_cargo` (build.rs lines 242-244). -/
def feature_to_cargo (name : String) : String :=
  "CARGO_FEATURE_" ++ feature_to_define name

/-- The header files staged from the vendored tree (build.rs lines 125-136). -/
def header_files : List String :=
  ["libbf.h", "libregexp-opcode.h", "libregexp.h", "libunicode-table.h",
   "libunicode.h", "list.h", "quickjs-atom.h", "quickjs-opcode.h",
   "quickjs.h", "cutils.h"]

/-- The source files staged from the vendored tree (build.rs lines 138-144). -/
def source_files : List String :=
  ["libregexp.c", "libunicode.c", "cutils.c", "quickjs.c", "libbf.c"]

/-- The base patch list (build.rs lines 146-152). -/
def base_patch_files : List String :=
  ["error_column_number.patch", "get_function_proto.patch",
   "check_stack_overflow.patch", "infinity_handling.patch"]

/-- The base define list (build.rs lines 154-158). -/
def base_defines : List (String × Option String) :=
  [("_GNU_SOURCE", none), ("CONFIG_VERSION", some "\"2020-01-19\""),
   ("CONFIG_BIGNUM", none)]

/-- The defines appended for a wasi target (build.rs lines 177-183). -/
def wasi_defines : List (String × Option String) :=
  [("EMSCRIPTEN", some "1"), ("FE_DOWNWARD", some "0"), ("FE_UPWARD", some "0")]

/-- The msvc-target test of build.rs lines 160-162.  `CARGO_CFG_TARGET_OS`
is unwrapped first; `CARGO_CFG_TARGET_ENV` is only read (and unwrapped)
when the target OS is `windows`, mirroring `&&` short-circuiting.
`none` models the `unwrap` panic on a missing variable. -/
def msvc_check (e : Env) : Option Bool :=
  match e.var "CARGO_CFG_TARGET_OS" with
  | none => none
  | some os =>
    if os = "windows" then
      match e.var "CARGO_CFG_TARGET_ENV" with
      | none => none
      | some tenv => some (tenv = "msvc")
    else some false

/-- The defines contributed by the `dump-*` feature loop
(build.rs lines 171-175), in feature-list order. -/
def dump_defines (e : Env) : List (String × Option String) :=
  (features.filter
    (fun f => str_starts_with f "dump-" &&
      (e.var (feature_to_cargo f)).isSome)).map
    (fun f => (feature_to_define f, none))

/-- The define list as it stands just before the wasi branch of
build.rs line 177: base defines, then `CONFIG_MODULE_EXPORTS` when the
`exports` feature is enabled (line 168), then the dump-feature defines. -/
def defines_before_wasi (e : Env) : List (String × Option String) :=
  base_defines
    ++ (if (e.var "CARGO_FEATURE_EXPORTS").isSome
        then [("CONFIG_MODULE_EXPORTS", none)] else [])
    ++ dump_defines e

/-- The fully resolved define list of `main` (build.rs lines 154-183):
`none` models the `unwrap` panic when `CARGO_CFG_TARGET_OS` is unset. -/
def resolved_defines (e : Env) : Option (List (String × Option String)) :=
  match e.var "CARGO_CFG_TARGET_OS" with
  | none => none
  | some os =>
    some (defines_before_wasi e ++ (if os = "wasi" then wasi_defines else []))

/-- The fully resolved patch list of `main` (build.rs lines 146-169):
base patches, then `basic_msvc_compat.patch` for windows/msvc targets
(line 163), then `read_module_exports.patch` when the `exports` feature
is enabled (line 167). -/
def resolved_patches (e : Env) : Option (List String) :=
  match msvc_check e with
  | none => none
  | some msvc =>
    some (base_patch_files
      ++ (if msvc then ["basic_msvc_compat.patch"] else [])
      ++ (if (e.var "CARGO_FEATURE_EXPORTS").isSome
          then ["read_module_exports.patch"] else []))

/-- The wasi-sdk cache directory `OUT_DIR/wasi-sdk` (build.rs lines 14-15). -/
def wasi_sdk_dir : RPath := RPath.outDir "wasi-sdk"

/-- The (host OS, host arch) → archive-suffix table of build.rs
lines 29-35; `none` is the `panic!("Unsupported platform tuple ...")` arm. -/
def file_suffix (os arch : String) : Option String :=
  if os = "linux" ∧ (arch = "x86" ∨ arch = "x86_64") then some "linux"
  else if os = "macos" ∧ (arch = "x86" ∨ arch = "x86_64" ∨ arch = "aarch64")
    then some "macos"
  else if os = "windows" ∧ arch = "x86" then some "mingw-x86"
  else if os = "windows" ∧ arch = "x86_64" then some "mingw"
  else none

/-- The guarded download step of `download_wasi_sdk` (build.rs
lines 27-58): run only when the archive file is absent; fails on an
unsupported host tuple (line 34) or a non-zero `curl` exit (line 52).
`curl_exit` is the exit status the external tool would report. -/
def download_step (host : HostInfo) (fs : FsState) (curl_exit : Nat) :
    Option (List Event) :=
  if fs.sdk_archive_exists then some []
  else match file_suffix host.os host.arch with
    | none => none
    | some suffix =>
      if curl_exit = 0 then some [Event.sdkDownload suffix] else none

/-- The guarded extraction step of `download_wasi_sdk` (build.rs
lines 60-81): run only when `bin/wasm-ld` is absent; fails on a non-zero
`tar` exit (line 75). -/
def extract_step (fs : FsState) (tar_exit : Nat) : Option (List Event) :=
  if fs.sdk_linker_exists then some []
  else if tar_exit = 0 then some [Event.sdkExtract] else none

/-- `download_wasi_sdk` (build.rs lines 13-84): unconditionally create
the cache directory, then the guarded download step, then the guarded
extraction step. -/
def download_wasi_sdk (host : HostInfo) (fs : FsState)
    (curl_exit tar_exit : Nat) : Option (List Event) :=
  match download_step host fs curl_exit, extract_step fs tar_exit with
  | some dlEvs, some exEvs =>
    some (Event.mkdir wasi_sdk_dir :: (dlEvs ++ exEvs))
  | _, _ => none

/-- Where the wasi toolchain ends up being taken from: the `WASI_SDK`
override path, or the provisioner's cache directory. -/
inductive SdkPath where
  | external (p : String)
  | cache
deriving DecidableEq

/-- `get_wasi_sdk_path` (build.rs lines 86-90): use the `WASI_SDK`
override directly when set, otherwise run the provisioner. -/
def get_wasi_sdk_path (e : Env) (host : HostInfo) (fs : FsState)
    (curl_exit tar_exit : Nat) : Option (List Event × SdkPath) :=
  match e.var "WASI_SDK" with
  | some p => some ([], SdkPath.external p)
  | none =>
    match download_wasi_sdk host fs curl_exit tar_exit with
    | none => none
    | some evs => some (evs, SdkPath.cache)

/-- All inputs of one invocation of the build script: the environment,
the host platform, the filesystem probe results, and the outcomes of the
external processes it spawns.  `wait` is, per patch file, the result of
`child.wait_with_output()` for the `patch` tool: `none` models an
OS-level wait failure (the only case its `expect` aborts on), `some c`
a completed tool run with exit status `c`.  `generated` is the output of
live bindgen introspection (`none` models `generate()` failing). -/
structure BuildInput where
  env : Env
  host : HostInfo
  fs : FsState
  wait : String → Option Nat
  curl_exit : Nat
  tar_exit : Nat
  generated : Option String

/-- The staging copies of build.rs lines 185-189: every source file then
every header file is copied from the vendored `quickjs/` tree into the
build-output directory, then the synthesized binding-surface header
`quickjs.bind.h` is copied from the crate root.  (The copies' `expect`
aborts — vendored tree missing — are outside the claims modelled here
and the copies are taken to succeed.) -/
def staged_copy_events : List Event :=
  (source_files ++ header_files).map
    (fun f => Event.copyFile (RPath.repo ("quickjs/" ++ f)) (RPath.outDir f))
  ++ [Event.copyFile (RPath.repo "quickjs.bind.h") (RPath.outDir "quickjs.bind.h")]

/-- The patch loop of build.rs lines 191-194 over `fn patch`
(lines 250-266).  For each patch file in order: `patch -p1 -f` is spawned
with the build-output directory as its working directory and the patch
content piped to its standard input, then `child.wait_with_output()`
is awaited with `.expect("Unable to apply patch")`.  That `expect` fires
only when waiting itself fails at the OS level (`wait = none`); a
completed tool run yields `Ok(output)` whose exit status the build
script never inspects, so the loop records the status and moves on. -/
def apply_patches (files : List String) (wait : String → Option Nat) :
    Option (List Event) :=
  match files with
  | [] => some []
  | f :: rest =>
    match wait f with
    | none => none
    | some code =>
      match apply_patches rest wait with
      | none => none
      | some evs => some (Event.patchApplied f code :: evs)

/-- The existence check of build.rs line 199 on the chosen sdk path.
The provisioner's cache directory was just `create_dir_all`'d by
`download_wasi_sdk`, so only the override path can be missing. -/
def sdk_present (fs : FsState) : SdkPath → Bool
  | SdkPath.external _ => fs.override_sdk_exists
  | SdkPath.cache => true

/-- The directory the chosen sdk path denotes; `OUT_DIR` stands for the
build-output directory (build.rs lines 14-15). -/
def sdk_root : SdkPath → String
  | SdkPath.external q => q
  | SdkPath.cache => "OUT_DIR/wasi-sdk"

/-- The wasi branch of build.rs lines 196-213: when the target OS is
`wasi`, obtain the sdk path, abort if it does not exist (line 199),
mutate `CC`/`AR`/`CFLAGS` (process environment only — no filesystem
effect) and record the sysroot cflag (lines 205-212). -/
def wasi_phase (i : BuildInput) (os : String) :
    Option (List Event × Option SdkPath × List String) :=
  if os = "wasi" then
    match get_wasi_sdk_path i.env i.host i.fs i.curl_exit i.tar_exit with
    | none => none
    | some (evs, p) =>
      if sdk_present i.fs p then
        some (evs, some p, ["--sysroot=" ++ sdk_root p ++ "/share/wasi-sysroot"])
      else none
  else some ([], none, [])

/-- The `cargo:warning=` text of build.rs lines 287-291. -/
def missing_bindings_warning (target : String) : String :=
  "rquickjs probably doesn't ship bindings for platform `" ++ target ++
  "`. try the `bindgen` feature instead."

/-- The placeholder artifact content written by the fallback bindgen
variant (build.rs lines 295-303): the `format!` raw string with `{{`/`}}`
unescaped and the target triple interpolated. -/
def bindings_env_content (target : String) : String :=
  "macro_rules! bindings_env \x7b\n                (\"TARGET\") => \x7b \""
  ++ target ++ "\" \x7d;\n            \x7d"

/-- The `#[cfg(not(feature = "bindgen"))]` variant of `bindgen`
(build.rs lines 268-304).  The header file, defines and extra cflags
parameters are accepted and ignored exactly as in the source.  When no
bundled `src/bindings/<target>.rs` exists, a non-fatal `cargo:warning=`
is printed; in every case the placeholder `bindings.rs` naming the
target is written to the build-output directory. -/
def bindgen_nofeature (target : String) ( _header_file : RPath)
    ( _defines : List (String × Option String)) ( _add_cflags : List String)
    (bundled_exists : Bool) : List Event :=
  (if bundled_exists then []
   else [Event.warn (missing_bindings_warning target)])
  ++ [Event.writeFile (RPath.outDir "bindings.rs") (bindings_env_content target)]

/-- The `#[cfg(feature = "bindgen")]` variant of `bindgen`
(build.rs lines 306-369).  The introspected declarations (an external
clang-based process, abstracted as the `generated` input; `none` models
`generate()`'s `expect` aborting) are written to `bindings.rs` in the
build-output directory; when the `update-bindings` feature is enabled
the artifact is additionally copied into the bundled
`src/bindings/<target>.rs` store, creating that directory first. -/
def bindgen_feature (target : String) (generated : Option String)
    (update_bindings : Bool) : Option (List Event) :=
  match generated with
  | none => none
  | some content =>
    some ([Event.writeFile (RPath.outDir "bindings.rs") content]
      ++ (if update_bindings then
            [Event.mkdir (RPath.repo "src/bindings"),
             Event.copyFile (RPath.outDir "bindings.rs")
               (RPath.repo ("src/bindings/" ++ target ++ ".rs"))]
          else []))

/-- Dispatch between the two compile-time `bindgen` variants
(the `bindgen` cargo feature, visible to the build as
`CARGO_FEATURE_BINDGEN`).  Both variants `unwrap` the `TARGET`
variable first (build.rs lines 277, 315). -/
def bindgen_phase (i : BuildInput) (defines : List (String × Option String))
    (add_cflags : List String) : Option (List Event) :=
  match i.env.var "TARGET" with
  | none => none
  | some target =>
    if (i.env.var "CARGO_FEATURE_BINDGEN").isSome then
      bindgen_feature target i.generated
        (i.env.var "CARGO_FEATURE_UPDATE_BINDINGS").isSome
    else
      some (bindgen_nofeature target (RPath.outDir "quickjs.bind.h")
        defines add_cflags i.fs.bundled_bindings_exists)

/-- The phases of `main` up to (and excluding) binding generation:
configuration resolution, the patch loop, and the wasi toolchain phase.
Yields the resolved defines, the patch-loop events, the toolchain-phase
events, the toolchain path used, and the extra cflags. -/
def core_run (i : BuildInput) :
    Option (List (String × Option String) × List Event × List Event ×
      Option SdkPath × List String) :=
  match resolved_defines i.env, resolved_patches i.env with
  | some defines, some patches =>
    (match apply_patches patches i.wait with
     | none => none
     | some patchEvs =>
       match i.env.var "CARGO_CFG_TARGET_OS" with
       | none => none
       | some os =>
         match wasi_phase i os with
         | none => none
         | some (sdkEvs, sdkPath, add_cflags) =>
           some (defines, patchEvs, sdkEvs, sdkPath, add_cflags))
  | _, _ => none

/-- One full invocation of `main` (build.rs lines 92-240), as the trace of
its observable events plus the wasi toolchain path used (if any):
configuration resolution, staging copies, the patch loop, the wasi
toolchain phase, binding generation, and the final `cc` compilation of
`libquickjs.a` into the build-output directory, in program order.
`none` models any `panic!`/`expect`/`unwrap` abort. -/
def main_run (i : BuildInput) : Option (List Event × Option SdkPath) :=
  match core_run i with
  | none => none
  | some (defines, patchEvs, sdkEvs, sdkPath, add_cflags) =>
    match bindgen_phase i defines add_cflags with
    | none => none
    | some bindEvs =>
      some (staged_copy_events ++ patchEvs ++ sdkEvs ++ bindEvs
        ++ [Event.compileLib], sdkPath)

/-- Classifier: the events of the Toolchain Provisioner
(`download_wasi_sdk`): its `create_dir_all` of the cache directory, the
`curl` download, and the `tar` extraction. -/
def is_provisioner_event : Event → Bool
  | Event.mkdir (RPath.outDir "wasi-sdk") => true
  | Event.sdkDownload _ => true
  | Event.sdkExtract => true
  | _ => false

/-- Classifier: a write of the bindings artifact
(`OUT_DIR/bindings.rs`). -/
def is_binding_write : Event → Bool
  | Event.writeFile (RPath.outDir "bindings.rs") _ => true
  | _ => false

/-- Classifier: a run of the external patch tool. -/
def is_patch_event : Event → Bool
  | Event.patchApplied _ _ => true
  | _ => false

/-- The crate-root-relative paths an event writes to.  Every event other
than the bundled-bindings `create_dir_all`/`fs::copy` writes only below
the build-output directory (the patch tool runs chdir'ed into it, `curl`
and `tar` target the cache below it, `cc` emits objects and the archive
into it), so only writes to an `RPath.repo` destination appear here. -/
def Event.repoWrites : Event → List String
  | Event.copyFile _ (RPath.repo p) => [p]
  | Event.mkdir (RPath.repo p) => [p]
  | Event.writeFile (RPath.repo p) _ => [p]
  | _ => []

/-- The same invocation input with the bundled-bindings existence probe
answered by `b` (everything else unchanged). -/
def withBundled (i : BuildInput) (b : Bool) : BuildInput :=
  { i with fs := { i.fs with bundled_bindings_exists := b } }

/-- A plain host-build environment: linux/x86_64/gnu target, no feature
toggle enabled, no override variables. -/
def linux_env : Env :=
  ⟨fun k =>
    if k = "CARGO_CFG_TARGET_OS" then some "linux"
    else if k = "CARGO_CFG_TARGET_ENV" then some "gnu"
    else if k = "CARGO_CFG_TARGET_ARCH" then some "x86_64"
    else if k = "TARGET" then some "x86_64-unknown-linux-gnu"
    else none⟩

/-- A full invocation input for `linux_env`: cold filesystem, every
external tool succeeding with exit status 0. -/
def linux_input : BuildInput :=
  { env := linux_env, host := ⟨"linux", "x86_64"⟩,
    fs := ⟨false, false, false, false⟩,
    wait := fun _ => some 0, curl_exit := 0, tar_exit := 0,
    generated := none }

/-- `linux_input`, but the external `patch` tool reports exit status 1
(patch application failed) for every patch file. -/
def patch_fail_input : BuildInput :=
  { linux_input with wait := fun _ => some 1 }

/-- A wasi cross-compilation environment with no `WASI_SDK` override and
no feature toggle enabled. -/
def wasi_env : Env :=
  ⟨fun k =>
    if k = "CARGO_CFG_TARGET_OS" then some "wasi"
    else if k = "CARGO_CFG_TARGET_ARCH" then some "wasm32"
    else if k = "TARGET" then some "wasm32-wasi"
    else none⟩

/-- A full invocation input for `wasi_env`, run from a linux/x86_64 host
with a cold toolchain cache and succeeding external tools. -/
def wasi_input : BuildInput :=
  { env := wasi_env, host := ⟨"linux", "x86_64"⟩,
    fs := ⟨false, false, false, false⟩,
    wait := fun _ => some 0, curl_exit := 0, tar_exit := 0,
    generated := none }

/-- A linux/gnu environment with the `bindgen` and `update-bindings`
features enabled. -/
def update_env : Env :=
  ⟨fun k =>
    if k = "CARGO_CFG_TARGET_OS" then some "linux"
    else if k = "CARGO_CFG_TARGET_ENV" then some "gnu"
    else if k = "TARGET" then some "x86_64-unknown-linux-gnu"
    else if k = "CARGO_FEATURE_BINDGEN" then some "1"
    else if k = "CARGO_FEATURE_UPDATE_BINDINGS" then some "1"
    else none⟩

/-- A full invocation input for `update_env`, with live introspection
producing some declaration text. -/
def update_input : BuildInput :=
  { env := update_env, host := ⟨"linux", "x86_64"⟩,
    fs := ⟨false, false, false, false⟩,
    wait := fun _ => some 0, curl_exit := 0, tar_exit := 0,
    generated := some "pub type JSValue = u64;" }

/-- A second fallback-mode input with the same `TARGET` as `linux_input`
but a different define set (a dump feature enabled), a wasi target OS
(hence different extra cflags and a provisioned toolchain) and a present
bundled-bindings file — everything claim C10 allows to vary. -/
def alt_fallback_input : BuildInput :=
  { env := ⟨fun k =>
      if k = "CARGO_CFG_TARGET_OS" then some "wasi"
      else if k = "TARGET" then some "x86_64-unknown-linux-gnu"
      else if k = "CARGO_FEATURE_DUMP_LEAKS" then some "1"
      else if k = "WASI_SDK" then some "/opt/wasi-sdk"
      else none⟩,
    host := ⟨"linux", "x86_64"⟩,
    fs := ⟨false, false, true, true⟩,
    wait := fun _ => some 0, curl_exit := 0, tar_exit := 0,
    generated := none }

/-- A toolchain-cache state where the extracted linker survives but the
downloaded archive file has been removed. -/
def linker_only_fs : FsState := ⟨false, true, false, false⟩

/-- A warm toolchain-cache state: archive and linker both present. -/
def warm_fs : FsState := ⟨true, true, false, false⟩

/-- A cold toolchain-cache state: nothing present. -/
def cold_fs : FsState := ⟨false, false, false, false⟩

/-- The event trace of the concrete linux invocation. -/
def linux_trace : List Event := ((main_run linux_input).map Prod.fst).getD []

/-- The event trace of the concrete wasi invocation. -/
def wasi_trace : List Event := ((main_run wasi_input).map Prod.fst).getD []

/-- The event trace of the concrete update-bindings invocation. -/
def update_trace : List Event := ((main_run update_input).map Prod.fst).getD []

/-- The event trace of the second concrete fallback invocation. -/
def alt_trace : List Event :=
  ((main_run alt_fallback_input).map Prod.fst).getD []

/-! ## Inversion and event-shape lemmas -/

/-- Inversion of a successful `core_run`. -/
theorem core_run_inv {i : BuildInput}
    {defines : List (String × Option String)} {patchEvs sdkEvs : List Event}
    {sdkPath : Option SdkPath} {cflags : List String}
    (h : core_run i = some (defines, patchEvs, sdkEvs, sdkPath, cflags)) :
    resolved_defines i.env = some defines ∧
    ∃ patches os,
      resolved_patches i.env = some patches ∧
      apply_patches patches i.wait = some patchEvs ∧
      i.env.var "CARGO_CFG_TARGET_OS" = some os ∧
      wasi_phase i os = some (sdkEvs, sdkPath, cflags) := by
  unfold core_run at h
  split at h
  · split at h
    · exact absurd h (by simp)
    · split at h
      · exact absurd h (by simp)
      · split at h
        · exact absurd h (by simp)
        · simp only [Option.some.injEq, Prod.mk.injEq] at h
          obtain ⟨rfl, rfl, rfl, rfl, rfl⟩ := h
          exact ⟨‹_›, _, _, ‹_›, ‹_›, ‹_›, ‹_›⟩
  · exact absurd h (by simp)

/-- Inversion of a successful `main_run`. -/
theorem main_run_inv {i : BuildInput} {t : List Event} {sp : Option SdkPath}
    (h : main_run i = some (t, sp)) :
    ∃ defines patchEvs sdkEvs cflags bindEvs,
      core_run i = some (defines, patchEvs, sdkEvs, sp, cflags) ∧
      bindgen_phase i defines cflags = some bindEvs ∧
      t = staged_copy_events ++ patchEvs ++ sdkEvs ++ bindEvs
        ++ [Event.compileLib] := by
  unfold main_run at h
  split at h
  · exact absurd h (by simp)
  · rename_i defines patchEvs sdkEvs sdkPath cflags hcore
    split at h
    · exact absurd h (by simp)
    · rename_i bindEvs hbind
      obtain ⟨ht, hsp⟩ : staged_copy_events ++ patchEvs ++ sdkEvs ++ bindEvs
          ++ [Event.compileLib] = t ∧ sdkPath = sp := by
        injection h with h'
        simpa using h'
      subst hsp
      exact ⟨defines, patchEvs, sdkEvs, cflags, bindEvs, hcore, hbind, ht.symm⟩

/-- Shape of the patch-loop events: every event is a `patchApplied`
whose recorded status is the one the external tool reported. -/
theorem apply_patches_shape {files : List String} {wait : String → Option Nat}
    {l : List Event} (h : apply_patches files wait = some l) :
    ∀ e ∈ l, ∃ f c, wait f = some c ∧ e = Event.patchApplied f c := by
  induction files generalizing l with
  | nil =>
    unfold apply_patches at h
    obtain rfl : ([] : List Event) = l := by simpa using h
    simp
  | cons f rest ih =>
    unfold apply_patches at h
    cases hw : wait f with
    | none => rw [hw] at h; exact absurd h (by simp)
    | some code =>
      rw [hw] at h
      cases hr : apply_patches rest wait with
      | none => rw [hr] at h; exact absurd h (by simp)
      | some evs =>
        rw [hr] at h
        obtain rfl : Event.patchApplied f code :: evs = l := by simpa using h
        intro e he
        rcases List.mem_cons.mp he with rfl | he'
        · exact ⟨f, code, hw, rfl⟩
        · exact ih hr e he'

/-- Shape of the download step's events. -/
theorem download_step_shape {host : HostInfo} {fs : FsState}
    {curl_exit : Nat} {l : List Event}
    (h : download_step host fs curl_exit = some l) :
    ∀ e ∈ l, ∃ s, e = Event.sdkDownload s := by
  unfold download_step at h
  split at h
  · obtain rfl : ([] : List Event) = l := by simpa using h
    simp
  · split at h
    · exact absurd h (by simp)
    · split at h
      · rename_i suffix _ _
        obtain rfl : [Event.sdkDownload suffix] = l := by simpa using h
        intro e he
        obtain rfl := List.mem_singleton.mp he
        exact ⟨suffix, rfl⟩
      · exact absurd h (by simp)

/-- Shape of the extraction step's events. -/
theorem extract_step_shape {fs : FsState} {tar_exit : Nat} {l : List Event}
    (h : extract_step fs tar_exit = some l) :
    ∀ e ∈ l, e = Event.sdkExtract := by
  unfold extract_step at h
  split at h
  · obtain rfl : ([] : List Event) = l := by simpa using h
    simp
  · split at h
    · obtain rfl : [Event.sdkExtract] = l := by simpa using h
      simp
    · exact absurd h (by simp)

/-- Shape of the provisioner's events. -/
theorem download_wasi_sdk_shape {host : HostInfo} {fs : FsState}
    {curl_exit tar_exit : Nat} {l : List Event}
    (h : download_wasi_sdk host fs curl_exit tar_exit = some l) :
    ∀ e ∈ l, e = Event.mkdir wasi_sdk_dir ∨
      (∃ s, e = Event.sdkDownload s) ∨ e = Event.sdkExtract := by
  unfold download_wasi_sdk at h
  cases hdl : download_step host fs curl_exit with
  | none => rw [hdl] at h; exact absurd h (by simp)
  | some dlEvs =>
    cases hex : extract_step fs tar_exit with
    | none => rw [hdl, hex] at h; exact absurd h (by simp)
    | some exEvs =>
      rw [hdl, hex] at h
      obtain rfl : Event.mkdir wasi_sdk_dir :: (dlEvs ++ exEvs) = l := by
        simpa using h
      intro e he
      rcases List.mem_cons.mp he with rfl | he'
      · exact Or.inl rfl
      · rcases List.mem_append.mp he' with hd | hx
        · exact Or.inr (Or.inl (download_step_shape hdl e hd))
        · exact Or.inr (Or.inr (extract_step_shape hex e hx))

/-- Shape of the `get_wasi_sdk_path` events: with an override they are
empty, otherwise they are the provisioner's. -/
theorem get_wasi_sdk_path_shape {e : Env} {host : HostInfo} {fs : FsState}
    {curl_exit tar_exit : Nat} {evs : List Event} {p : SdkPath}
    (h : get_wasi_sdk_path e host fs curl_exit tar_exit = some (evs, p)) :
    ∀ ev ∈ evs, ev = Event.mkdir wasi_sdk_dir ∨
      (∃ s, ev = Event.sdkDownload s) ∨ ev = Event.sdkExtract := by
  unfold get_wasi_sdk_path at h
  cases hv : e.var "WASI_SDK" with
  | some q =>
    rw [hv] at h
    obtain ⟨rfl, -⟩ : ([] : List Event) = evs ∧ SdkPath.external q = p := by
      simpa using h
    simp
  | none =>
    rw [hv] at h
    cases hd : download_wasi_sdk host fs curl_exit tar_exit with
    | none => rw [hd] at h; exact absurd h (by simp)
    | some l =>
      rw [hd] at h
      obtain ⟨rfl, -⟩ : l = evs ∧ SdkPath.cache = p := by simpa using h
      exact download_wasi_sdk_shape hd

/-- Shape of the wasi-phase events: they are exactly the toolchain
acquisition's. -/
theorem wasi_phase_shape {i : BuildInput} {os : String} {evs : List Event}
    {sp : Option SdkPath} {cflags : List String}
    (h : wasi_phase i os = some (evs, sp, cflags)) :
    ∀ e ∈ evs, e = Event.mkdir wasi_sdk_dir ∨
      (∃ s, e = Event.sdkDownload s) ∨ e = Event.sdkExtract := by
  unfold wasi_phase at h
  by_cases hos : os = "wasi"
  · rw [if_pos hos] at h
    cases hg : get_wasi_sdk_path i.env i.host i.fs i.curl_exit i.tar_exit with
    | none => rw [hg] at h; exact absurd h (by simp)
    | some r =>
      obtain ⟨evs', p⟩ := r
      simp only [hg] at h
      by_cases hp : sdk_present i.fs p = true
      · rw [if_pos hp] at h
        obtain ⟨rfl, -, -⟩ : evs' = evs ∧ some p = sp ∧
            ["--sysroot=" ++ sdk_root p ++ "/share/wasi-sysroot"] = cflags := by
          simpa using h
        exact get_wasi_sdk_path_shape hg
      · rw [if_neg hp] at h
        exact absurd h (by simp)
  · rw [if_neg hos] at h
    obtain ⟨rfl, -, -⟩ : ([] : List Event) = evs ∧ (none : Option SdkPath) = sp ∧
        ([] : List String) = cflags := by simpa using h
    simp

/-- Shape of the binding-generation events. -/
theorem bindgen_phase_shape {i : BuildInput}
    {defines : List (String × Option String)} {cflags : List String}
    {l : List Event} (h : bindgen_phase i defines cflags = some l) :
    ∃ target, i.env.var "TARGET" = some target ∧
    ∀ e ∈ l, (∃ m, e = Event.warn m) ∨
      (∃ content, e = Event.writeFile (RPath.outDir "bindings.rs") content) ∨
      e = Event.mkdir (RPath.repo "src/bindings") ∨
      e = Event.copyFile (RPath.outDir "bindings.rs")
            (RPath.repo ("src/bindings/" ++ target ++ ".rs")) := by
  unfold bindgen_phase at h
  cases ht : i.env.var "TARGET" with
  | none => rw [ht] at h; exact absurd h (by simp)
  | some target =>
    simp only [ht] at h
    refine ⟨target, rfl, ?_⟩
    by_cases hbg : (i.env.var "CARGO_FEATURE_BINDGEN").isSome = true
    · rw [if_pos hbg] at h
      unfold bindgen_feature at h
      cases hg : i.generated with
      | none => rw [hg] at h; exact absurd h (by simp)
      | some content =>
        simp only [hg] at h
        obtain rfl := Option.some.inj h
        intro e he
        rcases List.mem_append.mp he with h1 | h2
        · obtain rfl := List.mem_singleton.mp h1
          exact Or.inr (Or.inl ⟨content, rfl⟩)
        · revert h2
          split
          · intro h2
            rcases List.mem_cons.mp h2 with rfl | h3
            · exact Or.inr (Or.inr (Or.inl rfl))
            · obtain rfl := List.mem_singleton.mp h3
              exact Or.inr (Or.inr (Or.inr rfl))
          · intro h2; exact absurd h2 (by simp)
    · rw [if_neg hbg] at h
      obtain rfl := Option.some.inj h
      unfold bindgen_nofeature
      intro e he
      rcases List.mem_append.mp he with h1 | h2
      · revert h1
        split
        · intro h1; exact absurd h1 (by simp)
        · intro h1
          obtain rfl := List.mem_singleton.mp h1
          exact Or.inl ⟨_, rfl⟩
      · obtain rfl := List.mem_singleton.mp h2
        exact Or.inr (Or.inl ⟨_, rfl⟩)

/-- No staging copy is a provisioner event. -/
theorem staged_copy_no_provision :
    ∀ e ∈ staged_copy_events, is_provisioner_event e = false := by decide

/-- No patch-loop event is a provisioner event. -/
theorem patch_events_no_provision {files : List String}
    {wait : String → Option Nat} {l : List Event}
    (h : apply_patches files wait = some l) :
    ∀ e ∈ l, is_provisioner_event e = false := by
  intro e he
  obtain ⟨f, c, -, rfl⟩ := apply_patches_shape h e he
  rfl

/-- No binding-generation event is a provisioner event. -/
theorem bindgen_events_no_provision {i : BuildInput}
    {defines : List (String × Option String)} {cflags : List String}
    {l : List Event} (h : bindgen_phase i defines cflags = some l) :
    ∀ e ∈ l, is_provisioner_event e = false := by
  intro e he
  obtain ⟨tgt, -, hsh⟩ := bindgen_phase_shape h
  rcases hsh e he with ⟨m, rfl⟩ | ⟨c, rfl⟩ | rfl | rfl <;> rfl

/-! ## The claims -/

/-- Claim C1 (code bug): a non-zero exit of the external patch tool is
not fatal.  `fn patch` ends in `child.wait_with_output().expect(..)`,
which aborts only when waiting itself fails at the OS level; the exit
status carried inside the successful `Ok(output)` is never inspected —
unlike the `curl` and `tar` invocations in the same file (build.rs
lines 52 and 75), which do check `output.status.success()`.  With every
patch-tool run exiting 1, all four base patches are still run through,
and the pipeline still writes a bindings artifact and compiles the
library. -/
theorem c1_nonzero_patch_exit_not_fatal :
    main_run patch_fail_input =
      some (staged_copy_events
        ++ base_patch_files.map (fun f => Event.patchApplied f 1)
        ++ [Event.warn (missing_bindings_warning "x86_64-unknown-linux-gnu"),
            Event.writeFile (RPath.outDir "bindings.rs")
              (bindings_env_content "x86_64-unknown-linux-gnu"),
            Event.compileLib], none) ∧
    Event.compileLib ∈ ((main_run patch_fail_input).map Prod.fst).getD [] := by
  decide

/-- Claim C2: with no feature toggle enabled and a linux/x86_64/gnu
target, the resolved define list is exactly
`_GNU_SOURCE, CONFIG_VERSION="2020-01-19", CONFIG_BIGNUM`, the patch
list is exactly the four base patches in order, and the Toolchain
Provisioner is never invoked (no cache mkdir, download or extraction
event, and no toolchain path in use). -/
theorem c2_default_linux_config (e : Env)
    (hos : e.var "CARGO_CFG_TARGET_OS" = some "linux")
    (henv : e.var "CARGO_CFG_TARGET_ENV" = some "gnu")
    (harch : e.var "CARGO_CFG_TARGET_ARCH" = some "x86_64")
    (hfeat : ∀ f ∈ features, e.var (feature_to_cargo f) = none) :
    resolved_defines e = some base_defines ∧
    resolved_patches e = some base_patch_files ∧
    ∀ i t sp, i.env = e → main_run i = some (t, sp) →
      sp = none ∧ ∀ ev ∈ t, is_provisioner_event ev = false := by
  have hex : e.var "CARGO_FEATURE_EXPORTS" = none := by
    have h := hfeat "exports" (by decide)
    have hc : feature_to_cargo "exports" = "CARGO_FEATURE_EXPORTS" := by decide
    rwa [hc] at h
  have hdump : dump_defines e = [] := by
    unfold dump_defines
    have hnil : features.filter (fun f => str_starts_with f "dump-" &&
        (e.var (feature_to_cargo f)).isSome) = [] := by
      apply List.filter_eq_nil_iff.mpr
      intro f hf
      simp [hfeat f hf]
    rw [hnil]
    rfl
  refine ⟨?_, ?_, ?_⟩
  · unfold resolved_defines defines_before_wasi
    rw [hos, hex, hdump]
    simp
  · unfold resolved_patches msvc_check
    rw [hos, hex]
    simp
  · intro i t sp hie h
    obtain ⟨defines, patchEvs, sdkEvs, cflags, bindEvs, hcore, hbind, rfl⟩ :=
      main_run_inv h
    obtain ⟨-, patches, os, -, hap, hosv, hw⟩ := core_run_inv hcore
    have hos' : os = "linux" := by
      rw [hie, hos] at hosv
      exact (Option.some.inj hosv).symm
    subst hos'
    unfold wasi_phase at hw
    rw [if_neg (by decide : ¬ (("linux" : String) = "wasi"))] at hw
    obtain ⟨rfl, rfl, rfl⟩ : ([] : List Event) = sdkEvs ∧
        (none : Option SdkPath) = sp ∧ ([] : List String) = cflags := by
      simpa using hw
    refine ⟨rfl, ?_⟩
    intro ev hev
    rcases List.mem_append.mp hev with h4 | h5
    · rcases List.mem_append.mp h4 with h6 | h7
      · rcases List.mem_append.mp h6 with h8 | h9
        · rcases List.mem_append.mp h8 with h10 | h11
          · exact staged_copy_no_provision ev h10
          · exact patch_events_no_provision hap ev h11
        · exact absurd h9 (by simp)
      · exact bindgen_events_no_provision hbind ev h7
    · obtain rfl := List.mem_singleton.mp h5
      rfl

/-- Witness for C2 at a concrete all-defaults linux environment. -/
theorem c2_default_linux_config_witness :
    resolved_defines linux_env = some base_defines ∧
    resolved_patches linux_env = some base_patch_files :=
  ⟨(c2_default_linux_config linux_env (by decide) (by decide) (by decide)
      (by decide)).1,
   (c2_default_linux_config linux_env (by decide) (by decide) (by decide)
      (by decide)).2.1⟩

/-- Claim C7: the resolved define list and patch list are pure functions
of the target OS/environment identifiers and the feature-toggle truth
values — two environments agreeing on those agree on both outputs
(same members, same order). -/
theorem c7_resolver_deterministic (e₁ e₂ : Env)
    (hos : e₁.var "CARGO_CFG_TARGET_OS" = e₂.var "CARGO_CFG_TARGET_OS")
    (henv : e₁.var "CARGO_CFG_TARGET_ENV" = e₂.var "CARGO_CFG_TARGET_ENV")
    (hf : ∀ f ∈ features, (e₁.var (feature_to_cargo f)).isSome
        = (e₂.var (feature_to_cargo f)).isSome) :
    resolved_defines e₁ = resolved_defines e₂ ∧
    resolved_patches e₁ = resolved_patches e₂ := by
  have hex : (e₁.var "CARGO_FEATURE_EXPORTS").isSome
      = (e₂.var "CARGO_FEATURE_EXPORTS").isSome := by
    have h := hf "exports" (by decide)
    have hc : feature_to_cargo "exports" = "CARGO_FEATURE_EXPORTS" := by decide
    rwa [hc] at h
  have hdump : dump_defines e₁ = dump_defines e₂ := by
    unfold dump_defines
    have hfc : features.filter (fun f => str_starts_with f "dump-" &&
          (e₁.var (feature_to_cargo f)).isSome)
        = features.filter (fun f => str_starts_with f "dump-" &&
          (e₂.var (feature_to_cargo f)).isSome) := by
      apply List.filter_congr
      intro f hfm
      rw [hf f hfm]
    rw [hfc]
  have hbw : defines_before_wasi e₁ = defines_before_wasi e₂ := by
    unfold defines_before_wasi
    rw [hex, hdump]
  constructor
  · unfold resolved_defines
    simp only [hos, hbw]
  · unfold resolved_patches msvc_check
    simp only [hos, henv, hex]

/-- Witness for C7: two (identical) concrete environments. -/
theorem c7_resolver_deterministic_witness :
    resolved_defines linux_env = resolved_defines linux_env ∧
    resolved_patches linux_env = resolved_patches linux_env :=
  c7_resolver_deterministic linux_env linux_env rfl rfl (fun _ _ => rfl)

/-- Claim C6: the provisioner's archive-name suffix is selected by
exactly the fixed (OS, arch) lookup table of build.rs lines 29-35, and
for every tuple outside the table an invocation that reaches the
download step (archive absent) fails fatally. -/
theorem c6_suffix_table (os arch : String) :
    (file_suffix os arch = some "linux" ↔
      os = "linux" ∧ (arch = "x86" ∨ arch = "x86_64")) ∧
    (file_suffix os arch = some "macos" ↔
      os = "macos" ∧ (arch = "x86" ∨ arch = "x86_64" ∨ arch = "aarch64")) ∧
    (file_suffix os arch = some "mingw-x86" ↔
      os = "windows" ∧ arch = "x86") ∧
    (file_suffix os arch = some "mingw" ↔
      os = "windows" ∧ arch = "x86_64") ∧
    (file_suffix os arch = none ↔
      ¬ ((os = "linux" ∧ (arch = "x86" ∨ arch = "x86_64")) ∨
         (os = "macos" ∧ (arch = "x86" ∨ arch = "x86_64" ∨ arch = "aarch64")) ∨
         (os = "windows" ∧ arch = "x86") ∨
         (os = "windows" ∧ arch = "x86_64"))) ∧
    (∀ fs curl_exit tar_exit, file_suffix os arch = none →
      fs.sdk_archive_exists = false →
      download_wasi_sdk ⟨os, arch⟩ fs curl_exit tar_exit = none) := by
  have hfatal : ∀ (fs : FsState) (curl_exit tar_exit : Nat),
      file_suffix os arch = none → fs.sdk_archive_exists = false →
      download_wasi_sdk ⟨os, arch⟩ fs curl_exit tar_exit = none := by
    intro fs ce te hn ha
    unfold download_wasi_sdk download_step
    simp [hn, ha]
  refine ⟨?_, ?_, ?_, ?_, ?_, hfatal⟩ <;>
  · unfold file_suffix
    split_ifs with h1 h2 h3 h4 <;> simp_all

/-- Witness for C6 at a tuple outside the table. -/
theorem c6_suffix_table_witness :
    download_wasi_sdk ⟨"freebsd", "riscv64"⟩ cold_fs 0 0 = none :=
  (c6_suffix_table "freebsd" "riscv64").2.2.2.2.2 cold_fs 0 0 (by decide) rfl

/-- Claim C3 (counterexample): the linker's existence alone does not
skip the download — with `bin/wasm-ld` present but the archive file
removed, the provisioner performs a download step. -/
theorem c3_counterexample :
    linker_only_fs.sdk_linker_exists = true ∧
    download_wasi_sdk ⟨"linux", "x86_64"⟩ linker_only_fs 0 0 =
      some [Event.mkdir wasi_sdk_dir, Event.sdkDownload "linux"] ∧
    Event.sdkDownload "linux" ∈
      (download_wasi_sdk ⟨"linux", "x86_64"⟩ linker_only_fs 0 0).getD [] := by
  decide

/-- Claim C3 (amended): the download step is skipped when the archive
file already exists, the extraction step when the linker already
exists; with a warm cache (both present, as after a completed prior
run) the provisioner performs zero download and zero extraction
steps. -/
theorem c3_warm_cache_skips (host : HostInfo) (fs : FsState)
    (curl_exit tar_exit : Nat)
    (ha : fs.sdk_archive_exists = true) (hl : fs.sdk_linker_exists = true) :
    download_step host fs curl_exit = some [] ∧
    extract_step fs tar_exit = some [] ∧
    download_wasi_sdk host fs curl_exit tar_exit =
      some [Event.mkdir wasi_sdk_dir] := by
  refine ⟨?_, ?_, ?_⟩ <;>
    simp [download_wasi_sdk, download_step, extract_step, ha, hl]

/-- Witness for the amended C3 at a concrete warm cache. -/
theorem c3_warm_cache_skips_witness :
    download_wasi_sdk ⟨"linux", "x86_64"⟩ warm_fs 0 0 =
      some [Event.mkdir wasi_sdk_dir] :=
  (c3_warm_cache_skips ⟨"linux", "x86_64"⟩ warm_fs 0 0 rfl rfl).2.2

/-- The provisioner's trace always starts with the cache-directory
creation (`create_dir_all`, build.rs line 17). -/
theorem download_wasi_sdk_mkdir {host : HostInfo} {fs : FsState}
    {curl_exit tar_exit : Nat} {l : List Event}
    (h : download_wasi_sdk host fs curl_exit tar_exit = some l) :
    Event.mkdir wasi_sdk_dir ∈ l := by
  unfold download_wasi_sdk at h
  cases hdl : download_step host fs curl_exit with
  | none => rw [hdl] at h; exact absurd h (by simp)
  | some dlEvs =>
    cases hex : extract_step fs tar_exit with
    | none => rw [hdl, hex] at h; exact absurd h (by simp)
    | some exEvs =>
      rw [hdl, hex] at h
      obtain rfl := Option.some.inj h
      exact List.mem_cons_self _ _

/-- Claim C4: for a wasi target the resolved define list is the one of
the other branches with exactly `EMSCRIPTEN=1`, `FE_DOWNWARD=0`,
`FE_UPWARD=0` appended, and the Toolchain Provisioner runs (its cache
mkdir appears in the trace) unless the `WASI_SDK` override is set, in
which case that path is used directly and no provisioner event
occurs. -/
theorem c4_wasi_target (i : BuildInput) (t : List Event) (sp : Option SdkPath)
    (hos : i.env.var "CARGO_CFG_TARGET_OS" = some "wasi")
    (h : main_run i = some (t, sp)) :
    resolved_defines i.env = some (defines_before_wasi i.env ++ wasi_defines) ∧
    (i.env.var "WASI_SDK" = none → Event.mkdir wasi_sdk_dir ∈ t) ∧
    (∀ p, i.env.var "WASI_SDK" = some p →
      sp = some (SdkPath.external p) ∧
      ∀ ev ∈ t, is_provisioner_event ev = false) := by
  obtain ⟨defines, patchEvs, sdkEvs, cflags, bindEvs, hcore, hbind, rfl⟩ :=
    main_run_inv h
  obtain ⟨hdef, patches, os, hpat, hap, hosv, hw⟩ := core_run_inv hcore
  have hos' : os = "wasi" := by
    rw [hos] at hosv
    exact (Option.some.inj hosv).symm
  subst hos'
  unfold wasi_phase at hw
  rw [if_pos rfl] at hw
  unfold get_wasi_sdk_path at hw
  refine ⟨?_, ?_, ?_⟩
  · unfold resolved_defines
    rw [hos]
    simp
  · intro hnone
    rw [hnone] at hw
    cases hd : download_wasi_sdk i.host i.fs i.curl_exit i.tar_exit with
    | none => rw [hd] at hw; exact absurd hw (by simp)
    | some l =>
      simp only [hd] at hw
      rw [if_pos (show sdk_present i.fs SdkPath.cache = true from rfl)] at hw
      obtain ⟨rfl, -, -⟩ : l = sdkEvs ∧ some SdkPath.cache = sp ∧
          ["--sysroot=" ++ sdk_root SdkPath.cache ++ "/share/wasi-sysroot"]
            = cflags := by simpa using hw
      have hm := download_wasi_sdk_mkdir hd
      exact List.mem_append_left _ (List.mem_append_left _
        (List.mem_append_right _ hm))
  · intro p hp
    simp only [hp] at hw
    by_cases hpe : sdk_present i.fs (SdkPath.external p) = true
    · rw [if_pos hpe] at hw
      obtain ⟨rfl, hsp, -⟩ : ([] : List Event) = sdkEvs ∧
          some (SdkPath.external p) = sp ∧
          ["--sysroot=" ++ sdk_root (SdkPath.external p) ++ "/share/wasi-sysroot"]
            = cflags := by simpa using hw
      refine ⟨hsp.symm, ?_⟩
      intro ev hev
      rcases List.mem_append.mp hev with h4 | h5
      · rcases List.mem_append.mp h4 with h6 | h7
        · rcases List.mem_append.mp h6 with h8 | h9
          · rcases List.mem_append.mp h8 with h10 | h11
            · exact staged_copy_no_provision ev h10
            · exact patch_events_no_provision hap ev h11
          · exact absurd h9 (by simp)
        · exact bindgen_events_no_provision hbind ev h7
      · obtain rfl := List.mem_singleton.mp h5
        rfl
    · rw [if_neg hpe] at hw
      exact absurd hw (by simp)

/-- Witness for C4 at a concrete wasi invocation with no override. -/
theorem c4_wasi_target_witness :
    Event.mkdir wasi_sdk_dir ∈ wasi_trace :=
  (c4_wasi_target wasi_input wasi_trace (some SdkPath.cache) (by decide)
    (by decide)).2.1 (by decide)

/-- No staging copy is a patch-tool run. -/
theorem staged_copy_no_patch :
    ∀ e ∈ staged_copy_events, is_patch_event e = false := by decide

/-- Claim C9: staging precedes patching — the trace of every successful
invocation starts with exactly the staging copies (all source files,
header files and the synthesized `quickjs.bind.h`), and every
patch-tool event sits at an index past all of them. -/
theorem c9_copies_before_patches (i : BuildInput) (t : List Event)
    (sp : Option SdkPath) (h : main_run i = some (t, sp)) :
    t.take staged_copy_events.length = staged_copy_events ∧
    ∀ k f c, t[k]? = some (Event.patchApplied f c) →
      staged_copy_events.length ≤ k := by
  obtain ⟨defines, patchEvs, sdkEvs, cflags, bindEvs, hcore, hbind, rfl⟩ :=
    main_run_inv h
  rw [List.append_assoc, List.append_assoc, List.append_assoc]
  constructor
  · exact List.take_left _ _
  · intro k f c hk
    by_contra hlt
    push_neg at hlt
    rw [List.getElem?_append_left hlt] at hk
    have hmem := List.getElem?_mem hk
    have := staged_copy_no_patch _ hmem
    simp [is_patch_event] at this

/-- Witness for C9 at a concrete linux invocation. -/
theorem c9_copies_before_patches_witness :
    linux_trace.take staged_copy_events.length = staged_copy_events :=
  (c9_copies_before_patches linux_input linux_trace none (by decide)).1

/-- Splitting membership in a full pipeline trace. -/
theorem trace_mem_split {a b c d : List Event} {e : Event}
    (he : e ∈ a ++ b ++ c ++ d ++ [Event.compileLib]) :
    e ∈ a ∨ e ∈ b ∨ e ∈ c ∨ e ∈ d ∨ e = Event.compileLib := by
  rcases List.mem_append.mp he with h4 | h5
  · rcases List.mem_append.mp h4 with h6 | h7
    · rcases List.mem_append.mp h6 with h8 | h9
      · rcases List.mem_append.mp h8 with h10 | h11
        · exact Or.inl h10
        · exact Or.inr (Or.inl h11)
      · exact Or.inr (Or.inr (Or.inl h9))
    · exact Or.inr (Or.inr (Or.inr (Or.inl h7)))
  · exact Or.inr (Or.inr (Or.inr (Or.inr (List.mem_singleton.mp h5))))

/-- `core_run` never reads the bundled-bindings probe. -/
theorem core_run_withBundled (i : BuildInput) (b : Bool) :
    core_run (withBundled i b) = core_run i := rfl

/-- In fallback mode the binding phase always succeeds, producing the
missing-bindings warning (bundled file absent) plus the placeholder
write. -/
theorem bindgen_phase_fallback {i : BuildInput} {tgt : String}
    (defines : List (String × Option String)) (cflags : List String)
    (hbg : i.env.var "CARGO_FEATURE_BINDGEN" = none)
    (ht : i.env.var "TARGET" = some tgt) :
    bindgen_phase i defines cflags =
      some ((if i.fs.bundled_bindings_exists then []
             else [Event.warn (missing_bindings_warning tgt)])
        ++ [Event.writeFile (RPath.outDir "bindings.rs")
             (bindings_env_content tgt)]) := by
  unfold bindgen_phase
  simp only [ht, hbg, Option.isSome_none, Bool.false_eq_true, if_false]
  rfl

/-- In live mode with successful introspection, the binding phase writes
the generated content and, exactly when `update-bindings` is enabled,
creates the bundled store and copies the artifact there. -/
theorem bindgen_phase_live {i : BuildInput} {tgt content : String}
    (defines : List (String × Option String)) (cflags : List String)
    (hbg : (i.env.var "CARGO_FEATURE_BINDGEN").isSome = true)
    (ht : i.env.var "TARGET" = some tgt)
    (hg : i.generated = some content) :
    bindgen_phase i defines cflags =
      some ([Event.writeFile (RPath.outDir "bindings.rs") content]
        ++ (if (i.env.var "CARGO_FEATURE_UPDATE_BINDINGS").isSome then
              [Event.mkdir (RPath.repo "src/bindings"),
               Event.copyFile (RPath.outDir "bindings.rs")
                 (RPath.repo ("src/bindings/" ++ tgt ++ ".rs"))]
            else [])) := by
  unfold bindgen_phase
  simp only [ht]
  rw [if_pos hbg]
  unfold bindgen_feature
  simp only [hg]

/-- No staging copy writes the bindings artifact. -/
theorem staged_copy_no_binding_write :
    ∀ e ∈ staged_copy_events, is_binding_write e = false := by decide

/-- No patch-loop event writes the bindings artifact. -/
theorem patch_events_no_binding_write {files : List String}
    {wait : String → Option Nat} {l : List Event}
    (h : apply_patches files wait = some l) :
    ∀ e ∈ l, is_binding_write e = false := by
  intro e he
  obtain ⟨f, c, -, rfl⟩ := apply_patches_shape h e he
  rfl

/-- No wasi-phase event writes the bindings artifact. -/
theorem wasi_events_no_binding_write {i : BuildInput} {os : String}
    {evs : List Event} {sp : Option SdkPath} {cflags : List String}
    (h : wasi_phase i os = some (evs, sp, cflags)) :
    ∀ e ∈ evs, is_binding_write e = false := by
  intro e he
  rcases wasi_phase_shape h e he with rfl | ⟨s, rfl⟩ | rfl <;> rfl

/-- In fallback mode the bindings-artifact writes of a successful trace
are exactly one placeholder naming the resolved target. -/
theorem fallback_filter_binding_writes {i : BuildInput} {tgt : String}
    {t : List Event} {sp : Option SdkPath}
    (hbg : i.env.var "CARGO_FEATURE_BINDGEN" = none)
    (ht : i.env.var "TARGET" = some tgt)
    (h : main_run i = some (t, sp)) :
    t.filter is_binding_write =
      [Event.writeFile (RPath.outDir "bindings.rs")
        (bindings_env_content tgt)] := by
  obtain ⟨defines, patchEvs, sdkEvs, cflags, bindEvs, hcore, hbind, rfl⟩ :=
    main_run_inv h
  obtain ⟨-, patches, os, -, hap, -, hw⟩ := core_run_inv hcore
  have hbE := bindgen_phase_fallback defines cflags hbg ht
  rw [hbind] at hbE
  obtain rfl := Option.some.inj hbE
  have h1 : staged_copy_events.filter is_binding_write = [] :=
    List.filter_eq_nil_iff.mpr
      (fun e he => by simp [staged_copy_no_binding_write e he])
  have h2 : patchEvs.filter is_binding_write = [] :=
    List.filter_eq_nil_iff.mpr
      (fun e he => by simp [patch_events_no_binding_write hap e he])
  have h3 : sdkEvs.filter is_binding_write = [] :=
    List.filter_eq_nil_iff.mpr
      (fun e he => by simp [wasi_events_no_binding_write hw e he])
  have h4 : (if i.fs.bundled_bindings_exists then []
      else [Event.warn (missing_bindings_warning tgt)]).filter
        is_binding_write = [] := by
    split <;> rfl
  simp [List.filter_append, h1, h2, h3, h4, is_binding_write]

/-- In fallback mode with no bundled bindings file, a successful trace
contains the missing-bindings warning. -/
theorem fallback_warn_missing {i : BuildInput} {tgt : String}
    {t : List Event} {sp : Option SdkPath}
    (hbg : i.env.var "CARGO_FEATURE_BINDGEN" = none)
    (ht : i.env.var "TARGET" = some tgt)
    (hb : i.fs.bundled_bindings_exists = false)
    (h : main_run i = some (t, sp)) :
    Event.warn (missing_bindings_warning tgt) ∈ t := by
  obtain ⟨defines, patchEvs, sdkEvs, cflags, bindEvs, hcore, hbind, rfl⟩ :=
    main_run_inv h
  have hbE := bindgen_phase_fallback defines cflags hbg ht
  rw [hbind, hb] at hbE
  obtain rfl := Option.some.inj hbE
  refine List.mem_append_left _ (List.mem_append_right _ ?_)
  simp

/-- Claim C5: in fallback mode, a missing bundled declaration file for
the target never makes the pipeline fail (success is independent of the
probe), and a successful run emits the non-fatal warning plus exactly
one bindings artifact — the placeholder naming the resolved target. -/
theorem c5_fallback_missing_bundled (i : BuildInput) (tgt : String)
    (hbg : i.env.var "CARGO_FEATURE_BINDGEN" = none)
    (ht : i.env.var "TARGET" = some tgt) :
    (main_run (withBundled i false)).isSome
      = (main_run (withBundled i true)).isSome ∧
    ∀ t sp, main_run (withBundled i false) = some (t, sp) →
      Event.warn (missing_bindings_warning tgt) ∈ t ∧
      t.filter is_binding_write =
        [Event.writeFile (RPath.outDir "bindings.rs")
          (bindings_env_content tgt)] := by
  have hbg' : ∀ b : Bool,
      (withBundled i b).env.var "CARGO_FEATURE_BINDGEN" = none := fun _ => hbg
  have ht' : ∀ b : Bool,
      (withBundled i b).env.var "TARGET" = some tgt := fun _ => ht
  constructor
  · unfold main_run
    rw [core_run_withBundled i false, core_run_withBundled i true]
    cases hc : core_run i with
    | none => rfl
    | some r =>
      obtain ⟨defines, patchEvs, sdkEvs, sdkPath, cflags⟩ := r
      dsimp only
      rw [bindgen_phase_fallback defines cflags (hbg' false) (ht' false),
          bindgen_phase_fallback defines cflags (hbg' true) (ht' true)]
      rfl
  · intro t sp h
    exact ⟨fallback_warn_missing (hbg' false) (ht' false) rfl h,
      fallback_filter_binding_writes (hbg' false) (ht' false) h⟩

/-- Witness for C5 at the concrete linux fallback invocation. -/
theorem c5_fallback_missing_bundled_witness :
    (main_run (withBundled linux_input false)).isSome
      = (main_run (withBundled linux_input true)).isSome :=
  (c5_fallback_missing_bundled linux_input "x86_64-unknown-linux-gnu"
    (by decide) (by decide)).1

/-- Claim C10: in fallback mode the written bindings artifact depends
only on the resolved target triple — any two successful invocations
with the same `TARGET`, however much their defines, cflags, filesystem
or platform differ, write the identical placeholder. -/
theorem c10_fallback_artifact_only_target (i₁ i₂ : BuildInput)
    (tgt : String) (t₁ t₂ : List Event) (sp₁ sp₂ : Option SdkPath)
    (hbg₁ : i₁.env.var "CARGO_FEATURE_BINDGEN" = none)
    (hbg₂ : i₂.env.var "CARGO_FEATURE_BINDGEN" = none)
    (ht₁ : i₁.env.var "TARGET" = some tgt)
    (ht₂ : i₂.env.var "TARGET" = some tgt)
    (h₁ : main_run i₁ = some (t₁, sp₁))
    (h₂ : main_run i₂ = some (t₂, sp₂)) :
    t₁.filter is_binding_write = t₂.filter is_binding_write ∧
    t₁.filter is_binding_write =
      [Event.writeFile (RPath.outDir "bindings.rs")
        (bindings_env_content tgt)] := by
  have f1 := fallback_filter_binding_writes hbg₁ ht₁ h₁
  have f2 := fallback_filter_binding_writes hbg₂ ht₂ h₂
  exact ⟨f1.trans f2.symm, f1⟩

/-- Witness for C10: two concrete fallback invocations sharing a target
but differing in defines, platform, toolchain and bundled state. -/
theorem c10_fallback_artifact_only_target_witness :
    linux_trace.filter is_binding_write
      = alt_trace.filter is_binding_write :=
  (c10_fallback_artifact_only_target linux_input alt_fallback_input
    "x86_64-unknown-linux-gnu" linux_trace alt_trace none
    (some (SdkPath.external "/opt/wasi-sdk"))
    (by decide) (by decide) (by decide) (by decide)
    (by decide) (by decide)).1

/-- No staging copy writes outside the build-output directory. -/
theorem staged_copy_repo_writes :
    ∀ e ∈ staged_copy_events, e.repoWrites = [] := by decide

/-- No patch-loop event writes outside the build-output directory. -/
theorem patch_events_repo_writes {files : List String}
    {wait : String → Option Nat} {l : List Event}
    (h : apply_patches files wait = some l) :
    ∀ e ∈ l, e.repoWrites = [] := by
  intro e he
  obtain ⟨f, c, -, rfl⟩ := apply_patches_shape h e he
  rfl

/-- No wasi-phase event writes outside the build-output directory (the
toolchain cache sits below it). -/
theorem wasi_events_repo_writes {i : BuildInput} {os : String}
    {evs : List Event} {sp : Option SdkPath} {cflags : List String}
    (h : wasi_phase i os = some (evs, sp, cflags)) :
    ∀ e ∈ evs, e.repoWrites = [] := by
  intro e he
  rcases wasi_phase_shape h e he with rfl | ⟨s, rfl⟩ | rfl <;> rfl

/-- The bundled artifact's destination lies under the bundled store. -/
theorem bindings_path_prefix (tgt : String) :
    str_starts_with ("src/bindings/" ++ tgt ++ ".rs") "src/bindings" = true := by
  unfold str_starts_with
  rw [List.isPrefixOf_iff_prefix]
  show "src/bindings".data <+: ("src/bindings/".data ++ tgt.data) ++ ".rs".data
  exact ((by decide : "src/bindings".data <+: "src/bindings/".data).trans
    (List.prefix_append _ _)).trans (List.prefix_append _ _)

/-- Claim C8: in live mode, exactly when the `update-bindings` toggle is
set the generated artifact is copied into the bundled
`src/bindings/<target>.rs` store, and that copy (with the store's
`create_dir_all`) is the only write the pipeline performs outside the
build-output directory and the toolchain cache: with the toggle unset no
event writes a crate-root path at all, and in every case every
crate-root path written lies under `src/bindings`. -/
theorem c8_update_bindings_only_external_write (i : BuildInput)
    (tgt : String) (t : List Event) (sp : Option SdkPath)
    (hbg : (i.env.var "CARGO_FEATURE_BINDGEN").isSome = true)
    (ht : i.env.var "TARGET" = some tgt)
    (h : main_run i = some (t, sp)) :
    ((i.env.var "CARGO_FEATURE_UPDATE_BINDINGS").isSome = true →
      Event.copyFile (RPath.outDir "bindings.rs")
        (RPath.repo ("src/bindings/" ++ tgt ++ ".rs")) ∈ t) ∧
    ((i.env.var "CARGO_FEATURE_UPDATE_BINDINGS").isSome = false →
      ∀ e ∈ t, e.repoWrites = []) ∧
    (∀ e ∈ t, ∀ p ∈ e.repoWrites,
      str_starts_with p "src/bindings" = true) := by
  obtain ⟨defines, patchEvs, sdkEvs, cflags, bindEvs, hcore, hbind, rfl⟩ :=
    main_run_inv h
  obtain ⟨-, patches, os, -, hap, -, hw⟩ := core_run_inv hcore
  cases hgen : i.generated with
  | none =>
    exfalso
    unfold bindgen_phase at hbind
    simp only [ht] at hbind
    rw [if_pos hbg] at hbind
    unfold bindgen_feature at hbind
    rw [hgen] at hbind
    exact absurd hbind (by simp)
  | some content =>
    have hbE := bindgen_phase_live defines cflags hbg ht hgen
    rw [hbind] at hbE
    obtain rfl := Option.some.inj hbE
    refine ⟨?_, ?_, ?_⟩
    · intro hup
      have hcm : Event.copyFile (RPath.outDir "bindings.rs")
          (RPath.repo ("src/bindings/" ++ tgt ++ ".rs")) ∈
          [Event.writeFile (RPath.outDir "bindings.rs") content]
          ++ (if (i.env.var "CARGO_FEATURE_UPDATE_BINDINGS").isSome then
                [Event.mkdir (RPath.repo "src/bindings"),
                 Event.copyFile (RPath.outDir "bindings.rs")
                   (RPath.repo ("src/bindings/" ++ tgt ++ ".rs"))]
              else []) := by
        rw [if_pos hup]
        simp
      exact List.mem_append_left _ (List.mem_append_right _ hcm)
    · intro hup e he
      rcases trace_mem_split he with h1 | h2 | h3 | h4 | rfl
      · exact staged_copy_repo_writes e h1
      · exact patch_events_repo_writes hap e h2
      · exact wasi_events_repo_writes hw e h3
      · rw [if_neg (by simp [hup])] at h4
        obtain rfl : e = Event.writeFile (RPath.outDir "bindings.rs") content := by
          simpa using h4
        rfl
      · rfl
    · intro e he p hp
      rcases trace_mem_split he with h1 | h2 | h3 | h4 | rfl
      · rw [staged_copy_repo_writes e h1] at hp
        exact absurd hp (by simp)
      · rw [patch_events_repo_writes hap e h2] at hp
        exact absurd hp (by simp)
      · rw [wasi_events_repo_writes hw e h3] at hp
        exact absurd hp (by simp)
      · rcases List.mem_append.mp h4 with h5 | h6
        · obtain rfl := List.mem_singleton.mp h5
          exact absurd hp (by simp [Event.repoWrites])
        · revert h6
          split
          · intro h6
            rcases List.mem_cons.mp h6 with rfl | h7
            · obtain rfl : p = "src/bindings" := by
                simpa [Event.repoWrites] using hp
              decide
            · obtain rfl := List.mem_singleton.mp h7
              obtain rfl : p = "src/bindings/" ++ tgt ++ ".rs" := by
                simpa [Event.repoWrites] using hp
              exact bindings_path_prefix tgt
          · intro h6
            exact absurd h6 (by simp)
      · exact absurd hp (by simp [Event.repoWrites])

/-- Witness for C8 at a concrete update-bindings invocation. -/
theorem c8_update_bindings_only_external_write_witness :
    Event.copyFile (RPath.outDir "bindings.rs")
      (RPath.repo ("src/bindings/" ++ "x86_64-unknown-linux-gnu" ++ ".rs"))
      ∈ update_trace :=
  (c8_update_bindings_only_external_write update_input
    "x86_64-unknown-linux-gnu" update_trace none
    (by decide) (by decide) (by decide)).1 (by decide)

end RqjsBuild
